import Mathlib

/-!
Shallow embedding of the two Streamlit movie-discovery front ends
(src/app.py and src/movie_recommender.py).

Numeric movie attributes (similarity scores, vote averages) are embedded as
rationals; machine floats only enter through comparisons and sorting, which
the rational order models faithfully for the stated ordering properties.
Remote HTTP calls are embedded as explicit arguments: either an
Except-valued response (request outcome plus parsed JSON shape) or an
oracle function from the request key to an optional payload.  Mutable
session / instance state is passed explicitly.
-/

/-! ## Python list primitives -/

/-- Python's enumerate, starting from a given index. -/
def enumFrom {α : Type} : Nat → List α → List (Nat × α)
  | _, [] => []
  | n, a :: l => (n, a) :: enumFrom (n + 1) l

/-- Python's list(enumerate(l)). -/
def pyEnum {α : Type} (l : List α) : List (Nat × α) := enumFrom 0 l

/-- Insert an element into a list already sorted by the boolean comparison le,
placing it before the first element b with le a b (stable insertion). -/
def insertSorted {α : Type} (le : α → α → Bool) (a : α) : List α → List α
  | [] => [a]
  | b :: l => if le a b then a :: b :: l else b :: insertSorted le a l

/-- Python's sorted(l, key=..., reverse=...): a stable sort with respect to the
boolean comparison le, where le a b means a may stand before b. -/
def pySorted {α : Type} (le : α → α → Bool) : List α → List α
  | [] => []
  | a :: l => insertSorted le a (pySorted le l)

/-- Python's slice l[-n:] for a nonnegative n: the last n elements, except that
n = 0 (the index -0 is 0) yields the whole list. -/
def pySliceLast {α : Type} (l : List α) (n : Nat) : List α :=
  if n = 0 then l else l.drop (l.length - n)

/-! ## app.py: data model and recommendation logic -/

/-- A row of the movies dataframe unpickled in app.py (data/moviess.pkl):
the columns the code reads are title and vote_average. -/
structure MovieRow where
  title : String
  vote_average : Rat
deriving DecidableEq, Repr

/-- Comparison used by sorted(list(enumerate(distances)), reverse=True,
key=lambda x: x[1]) in recommend: descending by similarity score. -/
def simDescLe (a b : Nat × Rat) : Bool := decide (b.2 ≤ a.2)

/-- app.py recommend, lines 174-175: the candidate pool of 30 similar movies,
sorted(list(enumerate(distances)), reverse=True, key=lambda x: x[1])[1:31]. -/
def movie_list (distances : List Rat) : List (Nat × Rat) :=
  ((pySorted simDescLe (pyEnum distances)).drop 1).take 30

/-- One entry of the recommendations list built in app.py recommend:
title plus vote_average (m_data.get('vote_average', 0)). -/
structure RecEntry where
  title : String
  rating : Rat
deriving DecidableEq, Repr

/-- app.py recommend, lines 178-183: movies.iloc[i[0]] projected to
title and rating; an out-of-range index is never hit on well-formed data. -/
def recEntryOf (movies : List MovieRow) (p : Nat × Rat) : RecEntry :=
  match movies.get? p.1 with
  | some m => ⟨m.title, m.vote_average⟩
  | none => ⟨"", 0⟩

/-- Comparison used by sorted(recommendations, key=lambda x: x['rating'],
reverse=True): descending by rating. -/
def ratingDescLe (a b : RecEntry) : Bool := decide (b.rating ≤ a.rating)

/-- app.py recommend, line 186: the similar movies re-sorted by rating,
truncated to num_movies. -/
def top_picks (recommendations : List RecEntry) (num_movies : Nat) : List RecEntry :=
  (pySorted ratingDescLe recommendations).take num_movies

/-- app.py recommend, line 171: movies[movies["title"] == movie_name].index[0],
the first positional index whose title equals movie_name; none models the
IndexError raised when the title is absent. -/
def firstTitleIdx (movie_name : String) : List MovieRow → Option Nat
  | [] => none
  | m :: rest =>
    if m.title = movie_name then some 0
    else (firstTitleIdx movie_name rest).map (· + 1)

/-- app.py recommend, lines 170-186, up to the hybrid rating sort: the list
top_picks of selected movies.  none models the IndexError on a missing title
or a missing similarity row. -/
def recommendPicks (movies : List MovieRow) (similarity : List (List Rat))
    (movie_name : String) (num_movies : Nat) : Option (List RecEntry) :=
  match firstTitleIdx movie_name movies with
  | none => none
  | some index =>
    match similarity.get? index with
    | none => none
    | some distances =>
      some (top_picks ((movie_list distances).map (recEntryOf movies)) num_movies)

/-- The JSON object returned by OMDB for one title, restricted to the fields
app.py reads; a missing "Poster" key is none. -/
structure OmdbDetails where
  Poster : Option String
  Response : Option String
deriving DecidableEq, Repr

/-- The fallback image constant used in app.py (lines 195, 281, 309, 359). -/
def placeholderNoImage : String := "https://via.placeholder.com/300x450?text=No+Image"

/-- app.py poster fallback (lines 193-196 and identically at 279-281,
307-309, 357-359): replace a missing, "N/A" or empty poster URL by the
placeholder constant. -/
def posterFallback (poster : Option String) : String :=
  match poster with
  | none => placeholderNoImage
  | some s => if s = "N/A" ∨ s = "" then placeholderNoImage else s

/-- app.py recommend, lines 170-198, complete: the parallel names and posters
lists.  fetch_movie_details is the OMDB lookup, an oracle from title to
optional response (it returns None both on a request error and when the
response's "Response" field is not "True"). -/
def recommend (movies : List MovieRow) (similarity : List (List Rat))
    (fetch_movie_details : String → Option OmdbDetails)
    (movie_name : String) (num_movies : Nat) : Option (List String × List String) :=
  match recommendPicks movies similarity movie_name num_movies with
  | none => none
  | some picks =>
    some (picks.map (fun m => m.title),
          picks.map (fun m => posterFallback ((fetch_movie_details m.title).bind (fun d => d.Poster))))

/-- app.py fetch_movie_details (lines 158-167): on a successful request the
parsed JSON is returned when its "Response" field is "True", otherwise None;
any exception is caught and yields None. -/
def fetch_movie_details_app (resp : Except String OmdbDetails) : Option OmdbDetails :=
  match resp with
  | .error _ => none
  | .ok data => if data.Response = some "True" then some data else none

/-- app.py trending grid poster (lines 354-359): when the details lookup fails
the bare string "https://via.placeholder.com/300x450" is taken, and only then
the None / "N/A" / "" check replaces by the No+Image placeholder. -/
def appTrendingPoster (details : Option OmdbDetails) : String :=
  posterFallback
    (match details with
     | some d => d.Poster
     | none => some "https://via.placeholder.com/300x450")

/-- app.py lines 338 and 342: the start index of the trending slice,
st.session_state.trending_offset % (len(movies) - 10). -/
def trending_start_idx (num_movies trending_offset : Nat) : Nat :=
  trending_offset % (num_movies - 10)

/-- Modelled from the spec: the claim's reading that the trending offset "is
reduced modulo the data-set size"; kept only to compare with the code's
trending_start_idx, which divides by the data-set size minus 10. -/
def trending_start_idx_spec (num_movies trending_offset : Nat) : Nat :=
  trending_offset % num_movies

/-- app.py lines 339 / 343: the displayed trending slice
movies.iloc[start_idx : start_idx + 10]. -/
def trending_slice (sorted_movies : List MovieRow) (trending_offset : Nat) : List MovieRow :=
  (sorted_movies.drop (trending_start_idx sorted_movies.length trending_offset)).take 10

/-- The selection-related session state of app.py. -/
structure AppSelectionState where
  selected_movie_name : Option String
  movie_selectbox : Option String
deriving DecidableEq, Repr

/-- app.py lines 205-211: handling of the "movie" query-string parameter.
titles is movies["title"].values; selected_movie_name = none covers both the
key being absent from the session state and a stored None. -/
def handle_movie_param (titles : List String) (st : AppSelectionState)
    (url_movie : String) : AppSelectionState :=
  if url_movie ∈ titles then
    if st.selected_movie_name ≠ some url_movie then
      { selected_movie_name := some url_movie, movie_selectbox := some url_movie }
    else st
  else st

/-! ## movie_recommender.py: liked movies and search history -/

/-- The record stored per liked movie id (movie_recommender.py lines 158-162). -/
structure LikeRecord (α : Type) where
  movie_data : α
  timestamp : Nat
  mode : String
deriving DecidableEq, Repr

/-- Keys of an insertion-ordered Python dict modelled as an association list. -/
def dictKeys {β : Type} (d : List (Nat × β)) : List Nat := d.map Prod.fst

/-- Python's k in d. -/
def dictMem {β : Type} : List (Nat × β) → Nat → Bool
  | [], _ => false
  | p :: d, k => p.1 == k || dictMem d k

/-- Python's d.get(k): the value stored at key k (keys are unique in a
Python dict, so the first occurrence is the occurrence). -/
def dictGet {β : Type} : List (Nat × β) → Nat → Option β
  | [], _ => none
  | p :: d, k => if p.1 == k then some p.2 else dictGet d k

/-- Python's d[k] = v: overwrite in place when the key exists, else append. -/
def dictSet {β : Type} : List (Nat × β) → Nat → β → List (Nat × β)
  | [], k, v => [(k, v)]
  | p :: d, k, v => if p.1 == k then (k, v) :: d else p :: dictSet d k v

/-- Python's del d[k]. -/
def dictDel {β : Type} : List (Nat × β) → Nat → List (Nat × β)
  | [], _ => []
  | p :: d, k => if p.1 == k then dictDel d k else p :: dictDel d k

/-- Python's x or "Unknown" on an optional string: None and "" are falsy. -/
def modeOrUnknown : Option String → String
  | none => "Unknown"
  | some s => if s = "" then "Unknown" else s

/-- MovieRecommender.like_movie (lines 156-163): store a record under
movie_id; now stands for datetime.now(). -/
def like_movie {α : Type} (liked_movies : List (Nat × LikeRecord α)) (movie_id : Nat)
    (movie_data : α) (mode : Option String) (now : Nat) : List (Nat × LikeRecord α) :=
  dictSet liked_movies movie_id ⟨movie_data, now, modeOrUnknown mode⟩

/-- MovieRecommender.unlike_movie (lines 165-169): delete the key when present. -/
def unlike_movie {α : Type} (liked_movies : List (Nat × LikeRecord α)) (movie_id : Nat) :
    List (Nat × LikeRecord α) :=
  if dictMem liked_movies movie_id then dictDel liked_movies movie_id else liked_movies

/-- MovieRecommender.is_movie_liked (lines 171-173). -/
def is_movie_liked {α : Type} (liked_movies : List (Nat × LikeRecord α)) (movie_id : Nat) : Bool :=
  dictMem liked_movies movie_id

/-- One entry of the user search history (movie_recommender.py lines 177-182);
now stands for datetime.now(). -/
structure SearchEntry where
  query : String
  movie_ids : List Nat
  languages : List String
  timestamp : Nat
deriving DecidableEq, Repr

/-- MovieRecommender.add_to_search_history (lines 175-187): append one entry,
then keep only the last 50 (history[-50:]) when the length exceeds 50. -/
def add_to_search_history (history : List SearchEntry) (query : String)
    (movie_ids : Option (List Nat)) (languages : Option (List String)) (now : Nat) :
    List SearchEntry :=
  let entry : SearchEntry := ⟨query, movie_ids.getD [], languages.getD [], now⟩
  let h := history ++ [entry]
  if 50 < h.length then h.drop (h.length - 50) else h

/-- The Clear History button handler (movie_recommender.py lines 843-846):
recommender.user_search_history = []. -/
def clear_search_history (_history : List SearchEntry) : List SearchEntry := []

/-! ## movie_recommender.py: remote fetch operations

Each fetcher builds a URL, headers and params and issues a GET inside a
try/except.  The request and JSON-decoding outcome is embedded as an
Except-valued argument holding the parsed response shape on success; a
missing JSON key is a none field, whose access raises and is caught by the
same except clause. -/

/-- The parsed JSON body of a TMDb list endpoint, restricted to the keys the
code reads; γ is the shape of one movie object. -/
structure TmdbResponse (γ : Type) where
  results : Option (List γ)
  total_pages : Option Nat
deriving DecidableEq, Repr

/-- The parsed JSON body of the TMDb genre list endpoint. -/
structure TmdbGenreResponse (γ : Type) where
  genres : Option (List γ)
deriving DecidableEq, Repr

/-- MovieRecommender.fetch_trending_movies (lines 189-221): on any exception,
including a missing results key, an empty list. -/
def fetch_trending_movies {γ : Type} (resp : Except String (TmdbResponse γ)) : List γ :=
  match resp with
  | .error _ => []
  | .ok data =>
    match data.results with
    | some rs => rs
    | none => []

/-- MovieRecommender.fetch_popular_movies (lines 223-237). -/
def fetch_popular_movies {γ : Type} (resp : Except String (TmdbResponse γ)) : List γ :=
  match resp with
  | .error _ => []
  | .ok data =>
    match data.results with
    | some rs => rs
    | none => []

/-- MovieRecommender.search_movies (lines 239-257): on success the results
plus data.get('total_pages', 1); on any exception ([], 1). -/
def search_movies {γ : Type} (resp : Except String (TmdbResponse γ)) : List γ × Nat :=
  match resp with
  | .error _ => ([], 1)
  | .ok data =>
    match data.results with
    | some rs => (rs, data.total_pages.getD 1)
    | none => ([], 1)

/-- MovieRecommender.get_movie_details (lines 259-273): the whole parsed body
on success, None on any exception. -/
def get_movie_details {γ : Type} (resp : Except String γ) : Option γ :=
  match resp with
  | .error _ => none
  | .ok data => some data

/-- MovieRecommender.get_movie_by_genre (lines 275-293). -/
def get_movie_by_genre {γ : Type} (resp : Except String (TmdbResponse γ)) : List γ :=
  match resp with
  | .error _ => []
  | .ok data =>
    match data.results with
    | some rs => rs
    | none => []

/-- MovieRecommender.get_genres (lines 295-308): reads the genres key. -/
def get_genres {γ : Type} (resp : Except String (TmdbGenreResponse γ)) : List γ :=
  match resp with
  | .error _ => []
  | .ok data =>
    match data.genres with
    | some gs => gs
    | none => []

/-- MovieRecommender.get_movie_by_language (lines 310-328). -/
def get_movie_by_language {γ : Type} (resp : Except String (TmdbResponse γ)) : List γ :=
  match resp with
  | .error _ => []
  | .ok data =>
    match data.results with
    | some rs => rs
    | none => []

/-- MovieRecommender.get_movie_by_year (lines 330-348). -/
def get_movie_by_year {γ : Type} (resp : Except String (TmdbResponse γ)) : List γ :=
  match resp with
  | .error _ => []
  | .ok data =>
    match data.results with
    | some rs => rs
    | none => []

/-- MovieRecommender.get_movies_with_filters (lines 350-376). -/
def get_movies_with_filters {γ : Type} (resp : Except String (TmdbResponse γ)) : List γ :=
  match resp with
  | .error _ => []
  | .ok data =>
    match data.results with
    | some rs => rs
    | none => []

/-- MovieRecommender.get_latest_movies (lines 378-406). -/
def get_latest_movies {γ : Type} (resp : Except String (TmdbResponse γ)) : List γ :=
  match resp with
  | .error _ => []
  | .ok data =>
    match data.results with
    | some rs => rs
    | none => []

/-- MovieRecommender.get_dubbed_movies (lines 408-433). -/
def get_dubbed_movies {γ : Type} (resp : Except String (TmdbResponse γ)) : List γ :=
  match resp with
  | .error _ => []
  | .ok data =>
    match data.results with
    | some rs => rs
    | none => []

/-! ## movie_recommender.py: content-based recommendations and display -/

/-- A TMDb movie object, restricted to the id field, the only one the
content-based recommendation path inspects structurally. -/
structure MovieJson where
  id : Nat
deriving DecidableEq, Repr

/-- Ascending comparison on enumerated scores, as used by numpy argsort. -/
def scoreAscLe (a b : Nat × Rat) : Bool := decide (a.2 ≤ b.2)

/-- numpy argsort on a score vector: the indices in ascending score order. -/
def argsort (scores : List Rat) : List Nat :=
  (pySorted scoreAscLe (pyEnum scores)).map Prod.fst

/-- MovieRecommender.get_content_based_recommendations (lines 473-509).
fetch is the get_movie_details lookup by id as an oracle; cosine_scores
abstracts the TfidfVectorizer + cosine_similarity pipeline applied to the
feature strings of the target and the valid candidates, giving one score per
valid candidate.  similar_indices = similarities.argsort()[-top_n:][::-1]. -/
def get_content_based_recommendations (fetch : Nat → Option MovieJson)
    (cosine_scores : MovieJson → List MovieJson → List Rat)
    (movie_id : Nat) (movies_list : List MovieJson) (top_n : Nat) : List MovieJson :=
  match fetch movie_id with
  | none => []
  | some target_movie =>
    let valid_movies :=
      (movies_list.filter (fun m => !(m.id == movie_id))).filterMap (fun m => fetch m.id)
    if valid_movies.isEmpty then []
    else
      let similarities := cosine_scores target_movie valid_movies
      let similar_indices := (pySliceLast (argsort similarities) top_n).reverse
      similar_indices.filterMap (fun i => valid_movies.get? i)

/-- The TMDb poster base URL constant (movie_recommender.py line 24). -/
def TMDB_IMAGE_BASE_URL : String := "https://image.tmdb.org/t/p/w500"

/-- The fallback image constant of display_movie_card (line 693). -/
def placeholderNoPoster : String := "https://via.placeholder.com/500x750?text=No+Poster"

/-- display_movie_card poster choice (lines 687-693): if poster_path is truthy
the TMDb image URL, else the No+Poster placeholder. -/
def display_movie_card_poster (poster_path : Option String) : String :=
  match poster_path with
  | some p => if p = "" then placeholderNoPoster else TMDB_IMAGE_BASE_URL ++ p
  | none => placeholderNoPoster

/-! ## movie_recommender.py: pagination state machine -/

/-- The pagination events occurring in every browsing mode of main:
the Previous button, the Next button, the decrement performed when a page
turns out empty, and the reset on a mode or filter change. -/
inductive PageEvent where
  | previous
  | next
  | emptyBackoff
  | reset
deriving DecidableEq, Repr

/-- One pagination event handler: Previous and the empty-result back-off
decrement only when the page exceeds 1 (lines 1154-1155, 1192-1193 and the
identical handlers of the other modes); Next increments; a mode or filter
change resets to 1. -/
def pageStep (page : Nat) : PageEvent → Nat
  | .previous => if 1 < page then page - 1 else page
  | .next => page + 1
  | .emptyBackoff => if 1 < page then page - 1 else page
  | .reset => 1

/-- The page reached from the initial page 1 after a sequence of events. -/
def runPages (events : List PageEvent) : Nat := events.foldl pageStep 1

/-! ## Properties of the list primitives -/

theorem length_enumFrom {α : Type} : ∀ (n : Nat) (l : List α), (enumFrom n l).length = l.length
  | _, [] => rfl
  | n, _ :: l => by simp [enumFrom, length_enumFrom (n + 1) l]

theorem length_pyEnum {α : Type} (l : List α) : (pyEnum l).length = l.length :=
  length_enumFrom 0 l

theorem mem_enumFrom {α : Type} :
    ∀ {n : Nat} {l : List α} {p : Nat × α}, p ∈ enumFrom n l →
      n ≤ p.1 ∧ l.get? (p.1 - n) = some p.2
  | n, [], p, h => by simp [enumFrom] at h
  | n, a :: l, p, h => by
    simp only [enumFrom, List.mem_cons] at h
    rcases h with rfl | h
    · simp
    · obtain ⟨h1, h2⟩ := mem_enumFrom h
      refine ⟨by omega, ?_⟩
      rw [show p.1 - n = (p.1 - (n + 1)) + 1 by omega]
      simpa using h2

theorem enumFrom_mem_of_get? {α : Type} :
    ∀ {n k : Nat} {l : List α} {a : α}, l.get? k = some a → (n + k, a) ∈ enumFrom n l
  | _, k, [], a, h => by simp at h
  | n, 0, b :: l, a, h => by
    simp at h
    subst h
    simp [enumFrom]
  | n, k + 1, b :: l, a, h => by
    simp only [List.get?_cons_succ] at h
    have ih := enumFrom_mem_of_get? (n := n + 1) h
    simp only [enumFrom, List.mem_cons]
    right
    have : n + 1 + k = n + (k + 1) := by omega
    rwa [this] at ih

theorem mem_pyEnum {α : Type} {l : List α} {p : Nat × α} (h : p ∈ pyEnum l) :
    l.get? p.1 = some p.2 := by
  simpa using (mem_enumFrom h).2

theorem pyEnum_mem {α : Type} {l : List α} {k : Nat} {a : α} (h : l.get? k = some a) :
    (k, a) ∈ pyEnum l := by
  simpa using enumFrom_mem_of_get? (n := 0) h

theorem nodup_enumFrom {α : Type} : ∀ (n : Nat) (l : List α), (enumFrom n l).Nodup
  | _, [] => List.nodup_nil
  | n, a :: l => by
    refine List.Pairwise.cons ?_ (nodup_enumFrom (n + 1) l)
    intro q hq heq
    have h1 := (mem_enumFrom hq).1
    rw [← heq] at h1
    simp at h1

theorem nodup_pyEnum {α : Type} (l : List α) : (pyEnum l).Nodup :=
  nodup_enumFrom 0 l

theorem length_insertSorted {α : Type} (le : α → α → Bool) (a : α) :
    ∀ l : List α, (insertSorted le a l).length = l.length + 1
  | [] => rfl
  | b :: l => by
    simp only [insertSorted]
    split
    · rfl
    · simp [length_insertSorted le a l]

theorem insertSorted_perm {α : Type} (le : α → α → Bool) (a : α) :
    ∀ l : List α, List.Perm (insertSorted le a l) (a :: l)
  | [] => List.Perm.refl _
  | b :: l => by
    simp only [insertSorted]
    split
    · exact List.Perm.refl _
    · exact ((insertSorted_perm le a l).cons b).trans (List.Perm.swap a b l)

theorem pySorted_perm {α : Type} (le : α → α → Bool) :
    ∀ l : List α, List.Perm (pySorted le l) l
  | [] => List.Perm.refl _
  | a :: l => (insertSorted_perm le a _).trans ((pySorted_perm le l).cons a)

theorem length_pySorted {α : Type} (le : α → α → Bool) (l : List α) :
    (pySorted le l).length = l.length :=
  (pySorted_perm le l).length_eq

theorem pairwise_insertSorted {α : Type} {le : α → α → Bool}
    (htrans : ∀ a b c, le a b = true → le b c = true → le a c = true)
    (htotal : ∀ a b, le a b = true ∨ le b a = true) (a : α) :
    ∀ l : List α, List.Pairwise (fun x y => le x y = true) l →
      List.Pairwise (fun x y => le x y = true) (insertSorted le a l)
  | [], _ => by simp [insertSorted]
  | b :: l, hl => by
    obtain ⟨hb, hl'⟩ := List.pairwise_cons.mp hl
    simp only [insertSorted]
    split
    · next hab =>
      refine List.pairwise_cons.mpr ⟨?_, hl⟩
      intro x hx
      rcases List.mem_cons.mp hx with rfl | hx
      · exact hab
      · exact htrans a b x hab (hb x hx)
    · next hab =>
      have hba : le b a = true := (htotal a b).resolve_left hab
      refine List.pairwise_cons.mpr ⟨?_, pairwise_insertSorted htrans htotal a l hl'⟩
      intro x hx
      rcases List.mem_cons.mp ((insertSorted_perm le a l).mem_iff.mp hx) with rfl | hx
      · exact hba
      · exact hb x hx

theorem pairwise_pySorted {α : Type} {le : α → α → Bool}
    (htrans : ∀ a b c, le a b = true → le b c = true → le a c = true)
    (htotal : ∀ a b, le a b = true ∨ le b a = true) :
    ∀ l : List α, List.Pairwise (fun x y => le x y = true) (pySorted le l)
  | [] => List.Pairwise.nil
  | a :: l => pairwise_insertSorted htrans htotal a _ (pairwise_pySorted htrans htotal l)

/-! ## Properties of the dict model -/

theorem dictGet_dictSet_self {β : Type} (k : Nat) (v : β) :
    ∀ d : List (Nat × β), dictGet (dictSet d k v) k = some v
  | [] => by simp [dictSet, dictGet]
  | p :: d => by
    cases hpk : (p.1 == k) with
    | true => simp [dictSet, dictGet, hpk]
    | false => simp [dictSet, dictGet, hpk, dictGet_dictSet_self k v d]

theorem dictGet_dictSet_ne {β : Type} (k k' : Nat) (v : β) (hkk : k' ≠ k) :
    ∀ d : List (Nat × β), dictGet (dictSet d k v) k' = dictGet d k'
  | [] => by
    have hkq : (k == k') = false := by
      simp only [beq_eq_false_iff_ne, ne_eq]
      exact fun h => hkk h.symm
    simp [dictSet, dictGet, hkq]
  | p :: d => by
    cases hpk : (p.1 == k) with
    | true =>
      have hp : p.1 = k := by simpa using hpk
      have hkq : (k == k') = false := by
        simp only [beq_eq_false_iff_ne, ne_eq]
        exact fun h => hkk h.symm
      simp [dictSet, dictGet, hpk, hkq, hp]
    | false =>
      cases hpq : (p.1 == k') with
      | true => simp [dictSet, dictGet, hpk, hpq]
      | false => simp [dictSet, dictGet, hpk, hpq, dictGet_dictSet_ne k k' v hkk d]

theorem dictKeys_dictSet_of_mem {β : Type} (k : Nat) (v : β) :
    ∀ d : List (Nat × β), dictMem d k = true → dictKeys (dictSet d k v) = dictKeys d
  | [], h => by simp [dictMem] at h
  | p :: d, h => by
    cases hpk : (p.1 == k) with
    | true =>
      have hp : p.1 = k := by simpa using hpk
      simp [dictSet, dictKeys, hpk, hp]
    | false =>
      have hd : dictMem d k = true := by
        simp only [dictMem, hpk, Bool.false_or] at h
        exact h
      have ih := dictKeys_dictSet_of_mem k v d hd
      rw [dictKeys, dictKeys] at ih
      simp [dictSet, dictKeys, hpk, ih]

theorem dictMem_eq_isSome {β : Type} (k : Nat) :
    ∀ d : List (Nat × β), dictMem d k = (dictGet d k).isSome
  | [] => rfl
  | p :: d => by
    cases hpk : (p.1 == k) with
    | true => simp [dictMem, dictGet, hpk]
    | false => simp [dictMem, dictGet, hpk, dictMem_eq_isSome k d]

theorem dictMem_dictSet_self {β : Type} (k : Nat) (v : β) (d : List (Nat × β)) :
    dictMem (dictSet d k v) k = true := by
  rw [dictMem_eq_isSome, dictGet_dictSet_self]
  rfl

theorem dictGet_dictDel_ne {β : Type} (k k' : Nat) (hkk : k' ≠ k) :
    ∀ d : List (Nat × β), dictGet (dictDel d k) k' = dictGet d k'
  | [] => rfl
  | p :: d => by
    cases hpk : (p.1 == k) with
    | true =>
      have hp : p.1 = k := by simpa using hpk
      have hne : (p.1 == k') = false := by
        rw [hp]
        simp only [beq_eq_false_iff_ne, ne_eq]
        exact fun h => hkk h.symm
      simp [dictDel, dictGet, hpk, hne, dictGet_dictDel_ne k k' hkk d]
    | false =>
      cases hpq : (p.1 == k') with
      | true => simp [dictDel, dictGet, hpk, hpq]
      | false => simp [dictDel, dictGet, hpk, hpq, dictGet_dictDel_ne k k' hkk d]

theorem dictMem_dictDel_self {β : Type} (k : Nat) :
    ∀ d : List (Nat × β), dictMem (dictDel d k) k = false
  | [] => rfl
  | p :: d => by
    cases hpk : (p.1 == k) with
    | true => simp [dictDel, hpk, dictMem_dictDel_self k d]
    | false => simp [dictDel, dictMem, hpk, dictMem_dictDel_self k d]

/-! ## Pagination invariant helper -/

theorem foldl_pageStep_ge_one :
    ∀ (events : List PageEvent) (p : Nat), 1 ≤ p → 1 ≤ List.foldl pageStep p events
  | [], _, hp => hp
  | e :: evs, p, hp => by
    apply foldl_pageStep_ge_one evs
    cases e with
    | previous => simp only [pageStep]; split <;> omega
    | next => simp only [pageStep]; omega
    | emptyBackoff => simp only [pageStep]; split <;> omega
    | reset => simp only [pageStep]; omega

/-! ## Claims -/

/-- C2: liking an already-liked movie id only overwrites that id's record:
the key list of the liked mapping is unchanged, every other key's record is
unchanged, and the id's record becomes the freshly built one; unliking a
movie id that is not in the liked mapping leaves the mapping unchanged. -/
theorem C2_like_unlike_idempotent {α : Type} (liked_movies : List (Nat × LikeRecord α))
    (movie_id : Nat) (movie_data : α) (mode : Option String) (now : Nat)
    (hmem : is_movie_liked liked_movies movie_id = true) :
    dictKeys (like_movie liked_movies movie_id movie_data mode now) = dictKeys liked_movies
    ∧ (∀ k, k ≠ movie_id →
        dictGet (like_movie liked_movies movie_id movie_data mode now) k
          = dictGet liked_movies k)
    ∧ dictGet (like_movie liked_movies movie_id movie_data mode now) movie_id
        = some ⟨movie_data, now, modeOrUnknown mode⟩
    ∧ (∀ liked2 : List (Nat × LikeRecord α), is_movie_liked liked2 movie_id = false →
        unlike_movie liked2 movie_id = liked2) := by
  refine ⟨dictKeys_dictSet_of_mem _ _ _ hmem, ?_, dictGet_dictSet_self _ _ _, ?_⟩
  · intro k hk
    exact dictGet_dictSet_ne _ _ _ hk _
  · intro liked2 h2
    simp only [is_movie_liked] at h2
    simp [unlike_movie, h2]

/-- C2 witness: a concrete instance of the like/unlike no-op properties. -/
theorem C2_witness :
    dictGet (like_movie [(1, (⟨"old", 0, "Unknown"⟩ : LikeRecord String))] 1 "new" none 5) 1
      = some ⟨"new", 5, "Unknown"⟩
    ∧ dictGet (like_movie [(1, (⟨"old", 0, "Unknown"⟩ : LikeRecord String))] 1 "new" none 5) 2
      = dictGet [(1, (⟨"old", 0, "Unknown"⟩ : LikeRecord String))] 2
    ∧ unlike_movie ([(3, (⟨"x", 0, "Unknown"⟩ : LikeRecord String))]) 1
      = [(3, (⟨"x", 0, "Unknown"⟩ : LikeRecord String))] :=
  ⟨(C2_like_unlike_idempotent [(1, ⟨"old", 0, "Unknown"⟩)] 1 "new" none 5 (by decide)).2.2.1,
   (C2_like_unlike_idempotent [(1, ⟨"old", 0, "Unknown"⟩)] 1 "new" none 5 (by decide)).2.1
     2 (by decide),
   (C2_like_unlike_idempotent [(1, ⟨"old", 0, "Unknown"⟩)] 1 "new" none 5 (by decide)).2.2.2
     [(3, ⟨"x", 0, "Unknown"⟩)] (by decide)⟩

/-- C10: like_movie followed by unlike_movie on the same id leaves the id not
liked and every other key's record as it was before. -/
theorem C10_like_then_unlike {α : Type} (liked_movies : List (Nat × LikeRecord α))
    (movie_id : Nat) (movie_data : α) (mode : Option String) (now : Nat) :
    is_movie_liked
        (unlike_movie (like_movie liked_movies movie_id movie_data mode now) movie_id)
        movie_id = false
    ∧ ∀ k, k ≠ movie_id →
        dictGet (unlike_movie (like_movie liked_movies movie_id movie_data mode now) movie_id) k
          = dictGet liked_movies k := by
  have hset :
      dictMem (dictSet liked_movies movie_id
        (⟨movie_data, now, modeOrUnknown mode⟩ : LikeRecord α)) movie_id = true :=
    dictMem_dictSet_self _ _ _
  constructor
  · simp [is_movie_liked, like_movie, unlike_movie, hset, dictMem_dictDel_self]
  · intro k hk
    simp only [like_movie, unlike_movie, hset, if_pos]
    rw [dictGet_dictDel_ne _ _ hk, dictGet_dictSet_ne _ _ _ hk]

/-- C10 witness: liking then unliking id 1 leaves id 1 unliked and id 2's
record untouched. -/
theorem C10_witness :
    is_movie_liked
        (unlike_movie
          (like_movie [(2, (⟨"keep", 1, "Trending"⟩ : LikeRecord String))] 1 "d" (some "") 3) 1)
        1 = false
    ∧ dictGet
        (unlike_movie
          (like_movie [(2, (⟨"keep", 1, "Trending"⟩ : LikeRecord String))] 1 "d" (some "") 3) 1)
        2 = dictGet [(2, (⟨"keep", 1, "Trending"⟩ : LikeRecord String))] 2 :=
  ⟨(C10_like_then_unlike [(2, ⟨"keep", 1, "Trending"⟩)] 1 "d" (some "") 3).1,
   (C10_like_then_unlike [(2, ⟨"keep", 1, "Trending"⟩)] 1 "d" (some "") 3).2 2 (by decide)⟩

/-- C6 counterexample: the Clear History button empties a nonempty history,
so an operation other than the 50-entry cap does remove entries, refuting
the claim as stated. -/
theorem C6_counterexample :
    clear_search_history [(⟨"inception", [27205], ["en"], 3⟩ : SearchEntry)]
      ≠ [(⟨"inception", [27205], ["en"], 3⟩ : SearchEntry)] := by decide

/-- C6 amended: add_to_search_history appends exactly one entry built from
its arguments and keeps at most the 50 most recent entries in their original
order (the result is a suffix of the old history plus the new entry); the
Clear History action, the one operation besides the cap that changes the
log, resets it to empty. -/
theorem C6_history_append_capped (history : List SearchEntry) (query : String)
    (movie_ids : Option (List Nat)) (languages : Option (List String)) (now : Nat) :
    (add_to_search_history history query movie_ids languages now).length
        = min (history.length + 1) 50
    ∧ (add_to_search_history history query movie_ids languages now).getLast?
        = some ⟨query, movie_ids.getD [], languages.getD [], now⟩
    ∧ (add_to_search_history history query movie_ids languages now).IsSuffix
        (history ++ [⟨query, movie_ids.getD [], languages.getD [], now⟩])
    ∧ clear_search_history history = [] := by
  have hL : (history ++
      [(⟨query, movie_ids.getD [], languages.getD [], now⟩ : SearchEntry)]).length
      = history.length + 1 := by simp
  by_cases h50 : 50 < history.length + 1
  · have hcond : 50 < (history ++
        [(⟨query, movie_ids.getD [], languages.getD [], now⟩ : SearchEntry)]).length := by
      rw [hL]; exact h50
    refine ⟨?_, ?_, ?_, rfl⟩
    · simp only [add_to_search_history]
      rw [if_pos hcond, List.length_drop, hL]
      omega
    · simp only [add_to_search_history]
      rw [if_pos hcond, List.getLast?_drop, if_neg (by rw [hL]; omega)]
      simp [List.getLast?_append]
    · simp only [add_to_search_history]
      rw [if_pos hcond]
      exact List.drop_suffix _ _
  · have hcond : ¬ 50 < (history ++
        [(⟨query, movie_ids.getD [], languages.getD [], now⟩ : SearchEntry)]).length := by
      rw [hL]; exact h50
    refine ⟨?_, ?_, ?_, rfl⟩
    · simp only [add_to_search_history]
      rw [if_neg hcond, hL]
      omega
    · simp only [add_to_search_history]
      rw [if_neg hcond]
      simp [List.getLast?_append]
    · simp only [add_to_search_history]
      rw [if_neg hcond]

/-- C3 counterexample: with 15 movies and offset 10 the code computes start
index 10 % (15 - 10) = 0, not 10 % 15 = 10: the trending offset is not
reduced modulo the data-set size. -/
theorem C3_counterexample :
    trending_start_idx 15 10 = 0 ∧ trending_start_idx_spec 15 10 = 10
    ∧ trending_start_idx 15 10 ≠ trending_start_idx_spec 15 10 := by decide

/-- C3 amended: from the initial page 1, every sequence of pagination events
(Previous, Next, empty-result back-off, reset) keeps the current page at
least 1 in every browsing mode; and for more than 10 movies the trending
offset is reduced modulo the data-set size minus 10, so the start index
stays in range and the displayed slice always holds 10 movies. -/
theorem C3_pagination_amended :
    (∀ events : List PageEvent, 1 ≤ runPages events)
    ∧ (∀ num_movies trending_offset : Nat, 10 < num_movies →
        trending_start_idx num_movies trending_offset < num_movies - 10)
    ∧ (∀ (sorted_movies : List MovieRow) (trending_offset : Nat),
        10 < sorted_movies.length →
        (trending_slice sorted_movies trending_offset).length = 10) := by
  refine ⟨fun evs => foldl_pageStep_ge_one evs 1 (le_refl 1), ?_, ?_⟩
  · intro n off h
    exact Nat.mod_lt _ (by omega)
  · intro l off h
    rw [trending_slice, List.length_take, List.length_drop]
    have : trending_start_idx l.length off < l.length - 10 := Nat.mod_lt _ (by omega)
    omega

/-- C3 witness: a concrete event sequence and a concrete 15-movie data set. -/
theorem C3_witness :
    1 ≤ runPages [PageEvent.next, PageEvent.previous, PageEvent.previous]
    ∧ trending_start_idx 15 7 < 15 - 10
    ∧ (trending_slice (List.replicate 15 (⟨"m", 0⟩ : MovieRow)) 7).length = 10 :=
  ⟨C3_pagination_amended.1 _, C3_pagination_amended.2.1 15 7 (by decide),
   C3_pagination_amended.2.2 (List.replicate 15 ⟨"m", 0⟩) 7 (by simp)⟩

/-- C4 counterexample: when the trending-grid details lookup fails, app.py
shows the bare constant without the No+Image text, which differs from the
placeholder the other fallback sites substitute for a missing poster: the
placeholder is not a single constant identical at every display site. -/
theorem C4_counterexample : appTrendingPoster none ≠ posterFallback none := by decide

/-- C4 amended: each display site replaces a missing, empty or "N/A" poster
by a fixed placeholder, but the constant differs by site: app.py uses the
300x450 No+Image placeholder (and the bare 300x450 URL when the trending
lookup fails entirely), while display_movie_card in movie_recommender.py
uses a 500x750 No+Poster placeholder and passes a non-empty poster path
through to the TMDb image URL unconditionally. -/
theorem C4_poster_fallbacks :
    posterFallback none = placeholderNoImage
    ∧ (∀ s : String, posterFallback (some s) =
        if s = "N/A" ∨ s = "" then placeholderNoImage else s)
    ∧ (∀ d : OmdbDetails, appTrendingPoster (some d) = posterFallback d.Poster)
    ∧ appTrendingPoster none = "https://via.placeholder.com/300x450"
    ∧ display_movie_card_poster none = placeholderNoPoster
    ∧ display_movie_card_poster (some "") = placeholderNoPoster
    ∧ (∀ p : String, p ≠ "" → display_movie_card_poster (some p) = TMDB_IMAGE_BASE_URL ++ p)
    ∧ placeholderNoImage ≠ placeholderNoPoster := by
  refine ⟨rfl, fun s => rfl, fun d => rfl, by decide, rfl, by decide, ?_, by decide⟩
  intro p hp
  simp [display_movie_card_poster, hp]

/-- C4 witness: a concrete non-empty poster path passes through unchanged. -/
theorem C4_witness :
    "/abc123.jpg" ≠ "" ∧
    display_movie_card_poster (some "/abc123.jpg") = TMDB_IMAGE_BASE_URL ++ "/abc123.jpg" :=
  ⟨by decide, C4_poster_fallbacks.2.2.2.2.2.2.1 "/abc123.jpg" (by decide)⟩

/-- C5: every remote-fetch operation maps a raised exception to an empty
result (empty list, or none for single-item lookups) instead of propagating
it; a missing results key raises inside the same try and degrades the same
way; and on success search_movies also returns the reported total page
count, defaulting to 1 when the key is absent. -/
theorem C5_fetch_error_handling (γ : Type) :
    (∀ e : String, fetch_trending_movies (Except.error e : Except String (TmdbResponse γ)) = [])
    ∧ (∀ e : String, fetch_popular_movies (Except.error e : Except String (TmdbResponse γ)) = [])
    ∧ (∀ e : String, search_movies (Except.error e : Except String (TmdbResponse γ)) = ([], 1))
    ∧ (∀ e : String, get_movie_details (Except.error e : Except String γ) = none)
    ∧ (∀ e : String, get_movie_by_genre (Except.error e : Except String (TmdbResponse γ)) = [])
    ∧ (∀ e : String, get_genres (Except.error e : Except String (TmdbGenreResponse γ)) = [])
    ∧ (∀ e : String, get_movie_by_language (Except.error e : Except String (TmdbResponse γ)) = [])
    ∧ (∀ e : String, get_movie_by_year (Except.error e : Except String (TmdbResponse γ)) = [])
    ∧ (∀ e : String, get_movies_with_filters (Except.error e : Except String (TmdbResponse γ)) = [])
    ∧ (∀ e : String, get_latest_movies (Except.error e : Except String (TmdbResponse γ)) = [])
    ∧ (∀ e : String, get_dubbed_movies (Except.error e : Except String (TmdbResponse γ)) = [])
    ∧ (∀ e : String, fetch_movie_details_app (Except.error e) = none)
    ∧ (∀ data : TmdbResponse γ, data.results = none →
        fetch_trending_movies (Except.ok data) = [])
    ∧ (∀ data : TmdbResponse γ, data.results = none →
        search_movies (Except.ok data) = ([], 1))
    ∧ (∀ (data : TmdbResponse γ) (rs : List γ), data.results = some rs →
        search_movies (Except.ok data) = (rs, data.total_pages.getD 1))
    ∧ (∀ (data : TmdbResponse γ) (rs : List γ), data.results = some rs →
        data.total_pages = none → (search_movies (Except.ok data)).2 = 1) := by
  refine ⟨fun e => rfl, fun e => rfl, fun e => rfl, fun e => rfl, fun e => rfl, fun e => rfl,
    fun e => rfl, fun e => rfl, fun e => rfl, fun e => rfl, fun e => rfl, fun e => rfl,
    ?_, ?_, ?_, ?_⟩
  · intro data h
    simp [fetch_trending_movies, h]
  · intro data h
    simp [search_movies, h]
  · intro data rs h
    simp [search_movies, h]
  · intro data rs h h2
    simp [search_movies, h, h2]

/-- C5 witness: a concrete failed request and a concrete successful search
response without a total_pages key. -/
theorem C5_witness :
    fetch_trending_movies (Except.error "boom" : Except String (TmdbResponse Nat)) = []
    ∧ search_movies (Except.ok ({ results := some [7], total_pages := none } : TmdbResponse Nat))
        = ([7], 1)
    ∧ (search_movies
        (Except.ok ({ results := some [7], total_pages := none } : TmdbResponse Nat))).2 = 1 := by
  obtain ⟨h1, -, -, -, -, -, -, -, -, -, -, -, -, -, h15, h16⟩ := C5_fetch_error_handling Nat
  exact ⟨h1 "boom", h15 ⟨some [7], none⟩ [7] rfl, h16 ⟨some [7], none⟩ [7] rfl rfl⟩

/-- C7: when the "movie" query-string parameter holds a title present in the
dataset the selected movie ends up equal to it; when it holds a value not in
the dataset the selection state is left entirely unchanged. -/
theorem C7_movie_param (titles : List String) (st : AppSelectionState) (url_movie : String) :
    (url_movie ∈ titles →
      (handle_movie_param titles st url_movie).selected_movie_name = some url_movie)
    ∧ (url_movie ∉ titles → handle_movie_param titles st url_movie = st) := by
  constructor
  · intro hmem
    rw [handle_movie_param, if_pos hmem]
    by_cases hsel : st.selected_movie_name = some url_movie
    · rw [if_neg (fun hne => hne hsel)]
      exact hsel
    · rw [if_pos hsel]
  · intro hmem
    rw [handle_movie_param, if_neg hmem]

/-- C7 witness: a title in the dataset selects it; an unknown title leaves
the state unchanged. -/
theorem C7_witness :
    (handle_movie_param ["Avatar", "Up"] ⟨none, none⟩ "Avatar").selected_movie_name
      = some "Avatar"
    ∧ handle_movie_param ["Avatar", "Up"] ⟨some "Up", some "Up"⟩ "Titanic"
      = ⟨some "Up", some "Up"⟩ :=
  ⟨(C7_movie_param ["Avatar", "Up"] ⟨none, none⟩ "Avatar").1 (by decide),
   (C7_movie_param ["Avatar", "Up"] ⟨some "Up", some "Up"⟩ "Titanic").2 (by decide)⟩

/-! ## Comparison facts and remaining helpers -/

theorem simDescLe_trans (a b c : Nat × Rat) :
    simDescLe a b = true → simDescLe b c = true → simDescLe a c = true := by
  intro hab hbc
  simp only [simDescLe, decide_eq_true_eq] at *
  exact le_trans hbc hab

theorem simDescLe_total (a b : Nat × Rat) :
    simDescLe a b = true ∨ simDescLe b a = true := by
  simp only [simDescLe, decide_eq_true_eq]
  exact le_total b.2 a.2

theorem ratingDescLe_trans (a b c : RecEntry) :
    ratingDescLe a b = true → ratingDescLe b c = true → ratingDescLe a c = true := by
  intro hab hbc
  simp only [ratingDescLe, decide_eq_true_eq] at *
  exact le_trans hbc hab

theorem ratingDescLe_total (a b : RecEntry) :
    ratingDescLe a b = true ∨ ratingDescLe b a = true := by
  simp only [ratingDescLe, decide_eq_true_eq]
  exact le_total b.rating a.rating

theorem posterFallback_ne_empty (poster : Option String) : posterFallback poster ≠ "" := by
  cases poster with
  | none => decide
  | some s =>
    show (if s = "N/A" ∨ s = "" then placeholderNoImage else s) ≠ ""
    by_cases hs : s = "N/A" ∨ s = ""
    · rw [if_pos hs]
      decide
    · rw [if_neg hs]
      exact fun h => hs (Or.inr h)

theorem mem_of_filterMap_get? {α : Type} {idxs : List Nat} {l : List α} {m : α}
    (h : m ∈ idxs.filterMap (fun i => l.get? i)) : m ∈ l := by
  rcases List.mem_filterMap.mp h with ⟨i, _, hgi⟩
  rcases List.get?_eq_some.mp hgi with ⟨hlt, rfl⟩
  exact List.get_mem l i hlt

theorem length_pySliceLast_le {α : Type} (l : List α) (n : Nat) (h : 1 ≤ n) :
    (pySliceLast l n).length ≤ n := by
  rw [pySliceLast, if_neg (by omega), List.length_drop]
  omega

/-- C9 counterexample: with top_n = 0 the Python slice [-0:] is the whole
array, so the function returns every valid candidate instead of at most
top_n movies: here 2 results instead of 0. -/
theorem C9_counterexample :
    get_content_based_recommendations (fun i => some ⟨i⟩) (fun _ _ => [0, 0]) 0
        [⟨1⟩, ⟨2⟩] 0 = [⟨2⟩, ⟨1⟩]
    ∧ ¬ ((get_content_based_recommendations (fun i => some ⟨i⟩) (fun _ _ => [0, 0]) 0
        [⟨1⟩, ⟨2⟩] 0).length ≤ 0) := by decide

/-- C9 amended: for top_n at least 1 (and a score oracle returning one score
per candidate, and an id-consistent details lookup),
get_content_based_recommendations never includes the target movie in its
result, returns at most top_n movies, and every returned movie is the
details object fetched for some member of the supplied candidate list. -/
theorem C9_content_recs_amended (fetch : Nat → Option MovieJson)
    (cosine_scores : MovieJson → List MovieJson → List Rat)
    (movie_id : Nat) (movies_list : List MovieJson) (top_n : Nat)
    (hfetch : ∀ i m, fetch i = some m → m.id = i)
    (hcos : ∀ t l, (cosine_scores t l).length = l.length)
    (htop : 1 ≤ top_n) :
    (∀ m ∈ get_content_based_recommendations fetch cosine_scores movie_id movies_list top_n,
        m.id ≠ movie_id)
    ∧ (get_content_based_recommendations fetch cosine_scores movie_id movies_list top_n).length
        ≤ top_n
    ∧ (∀ m ∈ get_content_based_recommendations fetch cosine_scores movie_id movies_list top_n,
        ∃ c ∈ movies_list, c.id ≠ movie_id ∧ fetch c.id = some m) := by
  cases hF : fetch movie_id with
  | none =>
    refine ⟨?_, ?_, ?_⟩ <;> simp [get_content_based_recommendations, hF]
  | some target =>
    simp only [get_content_based_recommendations, hF]
    by_cases hv : ((movies_list.filter (fun m => !(m.id == movie_id))).filterMap
        (fun m => fetch m.id)).isEmpty = true
    · rw [if_pos hv]
      refine ⟨?_, ?_, ?_⟩ <;> simp [htop]
    · rw [if_neg hv]
      refine ⟨?_, ?_, ?_⟩
      · intro m hm
        have hmv := mem_of_filterMap_get? hm
        rcases List.mem_filterMap.mp hmv with ⟨c, hc, hcm⟩
        rcases List.mem_filter.mp hc with ⟨hcl, hcid⟩
        rw [hfetch c.id m hcm]
        simpa using hcid
      · calc ((pySliceLast (argsort (cosine_scores target
              ((movies_list.filter (fun m => !(m.id == movie_id))).filterMap
                (fun m => fetch m.id)))) top_n).reverse.filterMap
              (fun i => ((movies_list.filter (fun m => !(m.id == movie_id))).filterMap
                (fun m => fetch m.id)).get? i)).length
            ≤ (pySliceLast (argsort (cosine_scores target
              ((movies_list.filter (fun m => !(m.id == movie_id))).filterMap
                (fun m => fetch m.id)))) top_n).reverse.length :=
              List.length_filterMap_le _ _
          _ = (pySliceLast (argsort (cosine_scores target
              ((movies_list.filter (fun m => !(m.id == movie_id))).filterMap
                (fun m => fetch m.id)))) top_n).length := List.length_reverse _
          _ ≤ top_n := length_pySliceLast_le _ _ htop
      · intro m hm
        have hmv := mem_of_filterMap_get? hm
        rcases List.mem_filterMap.mp hmv with ⟨c, hc, hcm⟩
        rcases List.mem_filter.mp hc with ⟨hcl, hcid⟩
        exact ⟨c, hcl, by simpa using hcid, hcm⟩

/-- C9 witness: a concrete run with top_n = 1 over two candidates. -/
theorem C9_witness :
    (get_content_based_recommendations (fun i => some ⟨i⟩)
      (fun _ l => l.map (fun _ => 0)) 0 [⟨1⟩, ⟨2⟩] 1).length ≤ 1 :=
  (C9_content_recs_amended (fun i => some ⟨i⟩) (fun _ l => l.map (fun _ => 0)) 0 [⟨1⟩, ⟨2⟩] 1
    (fun i m h => by cases h; rfl) (fun t l => by simp) (by decide)).2.1

/-- C1: when the query title occurs in the dataset and its self-similarity
strictly exceeds every other entry of its similarity row, recommend's picks
are sorted by descending rating; the query pair heads the similarity sort,
the 30-element candidate pool drawn after it never contains the query index,
every pool entry's similarity dominates everything beyond the top 31 of the
sort, and every returned pick is the projection of a pool entry. -/
theorem C1_recommend_rating_sorted_pool
    (movies : List MovieRow) (similarity : List (List Rat)) (movie_name : String)
    (num_movies : Nat) (index : Nat) (distances : List Rat) (dq : Rat)
    (hidx : firstTitleIdx movie_name movies = some index)
    (hrow : similarity.get? index = some distances)
    (hq : distances.get? index = some dq)
    (hmax : ∀ p ∈ pyEnum distances, p.1 ≠ index → p.2 < dq) :
    ∃ picks, recommendPicks movies similarity movie_name num_movies = some picks
      ∧ List.Pairwise (fun a b : RecEntry => b.rating ≤ a.rating) picks
      ∧ (pySorted simDescLe (pyEnum distances)).head? = some (index, dq)
      ∧ (∀ p ∈ movie_list distances, p.1 ≠ index)
      ∧ (∀ p ∈ movie_list distances,
          ∀ r ∈ (pySorted simDescLe (pyEnum distances)).drop 31, r.2 ≤ p.2)
      ∧ (∀ e ∈ picks, ∃ p ∈ movie_list distances, recEntryOf movies p = e) := by
  have hperm := pySorted_perm simDescLe (pyEnum distances)
  have hpw := pairwise_pySorted simDescLe_trans simDescLe_total (pyEnum distances)
  have hqmem : ((index, dq) : Nat × Rat) ∈ pySorted simDescLe (pyEnum distances) :=
    hperm.mem_iff.mpr (pyEnum_mem hq)
  obtain ⟨h, t, hht⟩ : ∃ h t, pySorted simDescLe (pyEnum distances) = h :: t := by
    cases hs : pySorted simDescLe (pyEnum distances) with
    | nil =>
      rw [hs] at hqmem
      exact absurd hqmem (List.not_mem_nil _)
    | cons x xs => exact ⟨x, xs, rfl⟩
  have hhmem : h ∈ pyEnum distances :=
    hperm.mem_iff.mp (by rw [hht]; exact List.mem_cons_self _ _)
  obtain ⟨hhd, hpt⟩ := List.pairwise_cons.mp (hht ▸ hpw)
  have hhead : h = (index, dq) := by
    by_cases hh1 : h.1 = index
    · have hget := mem_pyEnum hhmem
      rw [hh1, hq] at hget
      exact Prod.ext hh1 (by injection hget with hh; exact hh.symm)
    · exfalso
      have hlt : h.2 < dq := hmax h hhmem hh1
      have hqt : ((index, dq) : Nat × Rat) ∈ t := by
        rcases List.mem_cons.mp (hht ▸ hqmem) with heq | ht2
        · exact absurd (congrArg Prod.fst heq).symm hh1
        · exact ht2
      have hle := hhd _ hqt
      simp only [simDescLe, decide_eq_true_eq] at hle
      exact absurd hle (not_le_of_lt hlt)
  subst hhead
  have hnt : ((index, dq) : Nat × Rat) ∉ t := by
    have hnd : (((index, dq) : Nat × Rat) :: t).Nodup := by
      rw [← hht]
      exact (hperm.nodup_iff).mpr (nodup_pyEnum distances)
    exact (List.nodup_cons.mp hnd).1
  have hpool : ∀ p ∈ movie_list distances, p ∈ t := by
    intro p hp
    rw [movie_list, hht, show (((index, dq) : Nat × Rat) :: t).drop 1 = t from rfl] at hp
    exact List.Sublist.mem hp (List.take_sublist 30 t)
  refine ⟨top_picks ((movie_list distances).map (recEntryOf movies)) num_movies,
    ?_, ?_, ?_, ?_, ?_, ?_⟩
  · have hrow2 : similarity[index]? = some distances := by
      rw [← List.get?_eq_getElem?]
      exact hrow
    simp [recommendPicks, hidx, hrow2]
  · have hp2 := pairwise_pySorted ratingDescLe_trans ratingDescLe_total
      ((movie_list distances).map (recEntryOf movies))
    have hp3 := List.Pairwise.sublist (List.take_sublist num_movies _) hp2
    rw [top_picks]
    exact List.Pairwise.imp (fun hle => by
      simpa [ratingDescLe, decide_eq_true_eq] using hle) hp3
  · rw [hht]
    rfl
  · intro p hp hpi
    have hpt2 := hpool p hp
    have hpmem : p ∈ pyEnum distances :=
      hperm.mem_iff.mp (by rw [hht]; exact List.mem_cons_of_mem _ hpt2)
    have hget := mem_pyEnum hpmem
    rw [hpi, hq] at hget
    have hpe : p = (index, dq) := Prod.ext hpi (by injection hget with hh; exact hh.symm)
    exact hnt (hpe ▸ hpt2)
  · intro p hp r hr
    rw [hht, show (((index, dq) : Nat × Rat) :: t).drop 31 = t.drop 30 from rfl] at hr
    have hp30 : p ∈ t.take 30 := by
      rw [movie_list, hht, show (((index, dq) : Nat × Rat) :: t).drop 1 = t from rfl] at hp
      exact hp
    have hsplit := (List.pairwise_append.mp
      (by rw [List.take_append_drop 30 t]; exact hpt)).2.2
    have hle := hsplit p hp30 r hr
    simpa [simDescLe, decide_eq_true_eq] using hle
  · intro e he
    rw [top_picks] at he
    have he1 := List.Sublist.mem he (List.take_sublist num_movies _)
    have he2 := (pySorted_perm ratingDescLe _).mem_iff.mp he1
    rcases List.mem_map.mp he2 with ⟨p, hp, hpe⟩
    exact ⟨p, hp, hpe⟩

/-- C1 witness: a 3-movie dataset where the query "A" has the strictly
largest self-similarity in its row. -/
theorem C1_witness :
    ∃ picks, recommendPicks [⟨"A", 5⟩, ⟨"B", 3⟩, ⟨"C", 4⟩]
        [[3, 2, 1], [2, 3, 1], [1, 1, 3]] "A" 2 = some picks
      ∧ List.Pairwise (fun a b : RecEntry => b.rating ≤ a.rating) picks
      ∧ (pySorted simDescLe (pyEnum [3, 2, 1])).head? = some (0, 3)
      ∧ (∀ p ∈ movie_list [3, 2, 1], p.1 ≠ 0)
      ∧ (∀ p ∈ movie_list [3, 2, 1],
          ∀ r ∈ (pySorted simDescLe (pyEnum [3, 2, 1])).drop 31, r.2 ≤ p.2)
      ∧ (∀ e ∈ picks, ∃ p ∈ movie_list [3, 2, 1],
          recEntryOf [⟨"A", 5⟩, ⟨"B", 3⟩, ⟨"C", 4⟩] p = e) :=
  C1_recommend_rating_sorted_pool [⟨"A", 5⟩, ⟨"B", 3⟩, ⟨"C", 4⟩]
    [[3, 2, 1], [2, 3, 1], [1, 1, 3]] "A" 2 0 [3, 2, 1] 3
    (by decide) rfl rfl (by decide)

/-- C8: when the query title occurs, the catalog holds at least 31 movies and
the similarity row is as long as the catalog, recommend returns parallel
names and posters lists of equal length min(num_movies, 30), the i-th poster
being the fallback-processed OMDB poster of the i-th name, and every poster
entry a non-empty string. -/
theorem C8_recommend_parallel_lists
    (movies : List MovieRow) (similarity : List (List Rat))
    (fetch : String → Option OmdbDetails) (movie_name : String) (num_movies : Nat)
    (index : Nat) (distances : List Rat)
    (hidx : firstTitleIdx movie_name movies = some index)
    (h31 : 31 ≤ movies.length)
    (hrow : similarity.get? index = some distances)
    (hlen : distances.length = movies.length) :
    ∃ names posters,
      recommend movies similarity fetch movie_name num_movies = some (names, posters)
      ∧ names.length = min num_movies 30
      ∧ posters.length = min num_movies 30
      ∧ posters = names.map (fun t => posterFallback ((fetch t).bind (fun d => d.Poster)))
      ∧ ∀ s ∈ posters, s ≠ "" := by
  have hml : (movie_list distances).length = 30 := by
    rw [movie_list, List.length_take, List.length_drop, length_pySorted, length_pyEnum, hlen]
    omega
  have hpl : (top_picks ((movie_list distances).map (recEntryOf movies)) num_movies).length
      = min num_movies 30 := by
    rw [top_picks, List.length_take, length_pySorted, List.length_map, hml]
  refine ⟨(top_picks ((movie_list distances).map (recEntryOf movies)) num_movies).map
      (fun m => m.title),
    (top_picks ((movie_list distances).map (recEntryOf movies)) num_movies).map
      (fun m => posterFallback ((fetch m.title).bind (fun d => d.Poster))),
    ?_, ?_, ?_, ?_, ?_⟩
  · have hrow2 : similarity[index]? = some distances := by
      rw [← List.get?_eq_getElem?]
      exact hrow
    simp [recommend, recommendPicks, hidx, hrow2]
  · rw [List.length_map]
    exact hpl
  · rw [List.length_map]
    exact hpl
  · rw [List.map_map]
    rfl
  · intro s hs
    rcases List.mem_map.mp hs with ⟨m, _, rfl⟩
    exact posterFallback_ne_empty _

/-- C8 witness: a 31-movie catalog with an all-zero similarity row and a
lookup oracle that always fails. -/
theorem C8_witness :
    ∃ names posters,
      recommend (List.replicate 31 (⟨"A", 0⟩ : MovieRow)) [List.replicate 31 (0 : Rat)]
        (fun _ => none) "A" 5 = some (names, posters)
      ∧ names.length = min 5 30
      ∧ posters.length = min 5 30
      ∧ posters = names.map (fun t => posterFallback
          ((none : Option OmdbDetails).bind (fun d => d.Poster)))
      ∧ ∀ s ∈ posters, s ≠ "" :=
  C8_recommend_parallel_lists (List.replicate 31 ⟨"A", 0⟩) [List.replicate 31 0]
    (fun _ => none) "A" 5 0 (List.replicate 31 0) (by decide) (by simp) rfl (by simp)
